import Mathlib

/-!
# Verification of the application-submission workflow of `bot.py`

Shallow embedding of the intake bot in `src/bot.py`: a Telegram bot that
collects one free-text application per conversation, validates it by trimmed
length, persists it to a SQLite table and forwards it to a fixed organizer
chat, built on `python-telegram-bot`'s `ConversationHandler`.

Modelling conventions:
* Handlers are pure functions returning the next conversation state together
  with the ordered list of observable `Effect`s they perform (replies to the
  applicant, messages sent towards the organizer chat, the SQL INSERT, log
  lines).
* Fallible I/O (the SQLite INSERT, each `bot.send_message`) is modelled by a
  `Bool` parameter saying whether that attempt succeeds; the attempt itself is
  always recorded as an effect, and the outcome only drives the subsequent
  control flow, exactly as the `try`/`except` blocks in the source do.
* Python `str.strip()` is modelled by `pyStrip` (drop leading and trailing
  whitespace characters) and `len` by `String.length` (both count Unicode
  code points, as Python does).
* Python truthiness of an optional string (`x or d`; `x if x else d`) is
  `pyOrStr`; a direct f-string interpolation of an optional value is
  `pyStrOpt` (Python prints `None`).
-/

/-- A Telegram user as seen by the handlers: `update.effective_user`.
`username`, `first_name` and `last_name` are optional in the Telegram API. -/
structure TgUser where
  id : Int
  username : Option String
  first_name : Option String
  last_name : Option String
deriving Repr, DecidableEq

/-- Startup configuration: `ORGANIZER_CHAT_ID`, already parsed to `int`
(bot.py line 38 converts it with `int(...)` before `main` runs). -/
structure Env where
  organizerChatId : Int
deriving Repr, DecidableEq

/-- A row of the `applications` table as inserted by
`save_application_to_db` (the `id` and `timestamp` columns are assigned by
SQLite, not by the caller, so they are not part of the inserted tuple). -/
structure SubmissionRecord where
  user_id : Int
  username : String
  first_name : String
  last_name : String
  application_text : String
deriving Repr, DecidableEq

/-- Conversation state of one applicant's `ConversationHandler` session.
`idle` is "no active conversation" (initial, and after `ConversationHandler.END`);
`awaiting` is the numeric state `HANDLE_APPLICATION_SUBMISSION = 1`. -/
inductive ConvState where
  | idle
  | awaiting
deriving Repr, DecidableEq

/-- Observable side effects of processing one inbound update, in program
order.  `storeAppend` is the `INSERT INTO applications` execution (the append
invocation; whether it succeeded is a separate matter), `replyToApplicant` is
`update.message.reply_text` / `reply_html`, `sendMessage` is
`context.bot.send_message` (an attempt; the outcome is modelled separately). -/
inductive Effect where
  | storeAppend (record : SubmissionRecord)
  | replyToApplicant (text : String)
  | sendMessage (chat_id : Int) (text : String)
  | logInfo (msg : String)
  | logError (msg : String)
deriving Repr, DecidableEq

/-- Python `str.strip()`: remove leading and trailing whitespace characters.
(Python strips all Unicode whitespace; `Char.isWhitespace` covers space, tab,
CR and LF, which is what the workflow's inputs contain.) -/
def pyStrip (s : String) : String :=
  ⟨((s.data.dropWhile Char.isWhitespace).reverse.dropWhile Char.isWhitespace).reverse⟩

/-- Python `x or d` for an optional string: `None` and `""` are falsy. -/
def pyOrStr (x : Option String) (d : String) : String :=
  match x with
  | none => d
  | some s => if s = "" then d else s

/-- Direct f-string interpolation of an optional string: Python prints
`None` for an absent value. -/
def pyStrOpt (x : Option String) : String :=
  match x with
  | none => "None"
  | some s => s

/-- `User.mention_html()` of the transport library: an HTML link naming the
user.  External to bot.py; its exact text is irrelevant to every claim. -/
def mention_html (user : TgUser) : String :=
  "<a href=\"tg://user?id=" ++ toString user.id ++ "\">"
    ++ pyStrOpt user.first_name ++ "</a>"

/-- Welcome text sent by `start_command` (bot.py lines 98-106). -/
def welcome_message (user : TgUser) : String :=
  "👋 Привет, " ++ mention_html user ++ "!\n\n"
    ++ "Это бот для подачи заявок. Пожалуйста, ознакомьтесь с правилами:\n\n"
    ++ "📜 **Правила:**\n"
    ++ "1. Нажмите кнопку \x27Подать заявку\x27, чтобы увидеть шаблон.\n"
    ++ "2. Внимательно заполните заявку согласно шаблону и отправьте ее ОДНИМ сообщением.\n"
    ++ "3. Ваша заявка будет автоматически переслана организатору.\n\n"
    ++ "Удачи!"

/-- The application template sent by `request_application_action`
(bot.py lines 125-141). -/
def application_template_message : String :=
  "📝 **Шаблон для заполнения заявки:**\n\n"
    ++ "Пожалуйста, скопируйте этот шаблон, заполните его и отправьте одним сообщением.\n\n"
    ++ "------------------------------------\n"
    ++ "1. Ваше полное имя (ФИО):\n"
    ++ "   [Ваш ответ]\n\n"
    ++ "2. Ваш контактный номер телефона:\n"
    ++ "   [Ваш ответ]\n\n"
    ++ "3. Адрес электронной почты (Email):\n"
    ++ "   [Ваш ответ]\n\n"
    ++ "4. Подробное описание вашей идеи/предложения/запроса:\n"
    ++ "   [Ваш развернутый ответ]\n\n"
    ++ "5. Почему именно ваша заявка должна быть рассмотрена (ваши сильные стороны, мотивация и т.д.):\n"
    ++ "   [Ваш ответ]\n"
    ++ "------------------------------------\n\n"
    ++ "🕒 **Ожидаю вашу заполненную заявку...**"

/-- Rejection text for a too-short submission (bot.py lines 158-161). -/
def tooShortMessage : String :=
  "❗️ Ваша заявка кажется слишком короткой или пустой. "
    ++ "Пожалуйста, убедитесь, что вы заполнили все поля шаблона и попробуйте снова."

/-- Acknowledgment sent to the applicant on a validated submission
(bot.py lines 174-177). -/
def ackMessage : String :=
  "✅ Спасибо! Ваша заявка принята и успешно отправлена организатору.\n"
    ++ "Ожидайте ответа."

/-- Warning sent to the applicant when forwarding to the organizer fails
(bot.py lines 199-202). -/
def forwardFailWarning : String :=
  "⚠️ Произошла ошибка при пересылке вашей заявки организатору. "
    ++ "Пожалуйста, попробуйте подать заявку позже или свяжитесь с поддержкой."

/-- Cancellation acknowledgment sent by `cancel_conversation`
(bot.py lines 224-231). -/
def cancelMessage : String :=
  "Подача заявки отменена. Вы можете начать заново в любой момент, нажав \x27Подать заявку\x27 или отправив команду /start."

/-- Reply of `unknown_command_handler` (bot.py lines 237-240). -/
def unknownCommandMessage : String :=
  "🤷‍♂️ Извините, я не понимаю эту команду. "
    ++ "Используйте /start для начала работы или кнопку \x27Подать заявку\x27."

/-- The organizer-alert text sent when forwarding fails and the applicant is
not the organizer (bot.py line 208). -/
def alertText (user : TgUser) : String :=
  "🔴 ОШИБКА: Не удалось автоматически переслать заявку от пользователя @"
    ++ pyStrOpt user.username ++ " (ID: " ++ toString user.id
    ++ "). Подробности в логах сервера."

/-- Log line on a successful INSERT (bot.py line 82). -/
def savedLogMsg (user_id : Int) : String :=
  "Заявка от user_id: " ++ toString user_id ++ " сохранена в БД."

/-- Log line when the INSERT raises `sqlite3.Error` (bot.py line 84; the
exception detail interpolated in the source is elided). -/
def dbErrorLogMsg : String :=
  "Ошибка при сохранении заявки в БД."

/-- Log line on a successful forward to the organizer (bot.py line 195). -/
def forwardedLogMsg (user_id organizer : Int) : String :=
  "Заявка от user_id: " ++ toString user_id ++ " переслана организатору (ID: "
    ++ toString organizer ++ ")."

/-- Log line when the forward raises (bot.py line 197; exception elided). -/
def forwardErrorLogMsg : String :=
  "Не удалось отправить заявку организатору."

/-- Log line when the secondary organizer alert itself raises
(bot.py line 211; exception elided). -/
def alertFailLogMsg : String :=
  "Не удалось уведомить организатора об ошибке пересылки."

/-- Log line of `cancel_conversation` (bot.py line 223). -/
def cancelLogMsg (user : TgUser) : String :=
  "Пользователь " ++ pyStrOpt user.first_name ++ " (ID: " ++ toString user.id
    ++ ") отменил диалог."

/-- `save_application_to_db` (bot.py lines 67-86).  It executes the INSERT;
a `sqlite3.Error` is caught inside, logged, and swallowed (`except` block),
so the function always returns normally to its caller.  `dbOk` is whether
the INSERT/commit succeeded. -/
def save_application_to_db (dbOk : Bool) (user_id : Int)
    (username first_name last_name application_text : String) : List Effect :=
  Effect.storeAppend ⟨user_id, username, first_name, last_name, application_text⟩ ::
    (if dbOk then [Effect.logInfo (savedLogMsg user_id)]
     else [Effect.logError dbErrorLogMsg])

/-- The inline validation guard of `handle_application_message`
(bot.py line 157): `not application_text or len(application_text.strip()) < 20`.
`update.message.text` is a `str` here (the handler only fires on text
messages), so `not application_text` is the empty-string test. -/
def validationRejects (application_text : String) : Bool :=
  application_text == "" || (pyStrip application_text).length < 20

/-- The summary forwarded to the organizer (bot.py lines 180-188), split as
header `++` raw text `++` closing code fence, mirroring the f-string. -/
def organizer_message_header (user : TgUser) : String :=
  "🔔 **Новая заявка!** 🔔\n\n"
    ++ "👤 **От пользователя:**\n"
    ++ "   - ID: " ++ toString user.id ++ "\n"
    ++ "   - Username: @" ++ pyOrStr user.username "Не указан" ++ "\n"
    ++ "   - Имя: " ++ pyStrOpt user.first_name ++ " " ++ pyOrStr user.last_name "" ++ "\n\n"
    ++ "📝 **Текст заявки:**\n"
    ++ "```\n"

/-- `organizer_message` of bot.py lines 180-188. -/
def organizer_message (user : TgUser) (application_text : String) : String :=
  organizer_message_header user ++ application_text ++ "\n```"

/-- `handle_application_message` (bot.py lines 147-215).  `dbOk` is the
INSERT outcome, `forwardOk` the outcome of the forward to the organizer,
`alertOk` the outcome of the secondary alert attempt.  The comparison
`str(user.id) != str(ORGANIZER_CHAT_ID)` (line 204) is between the `str` of
two Python ints, which is equivalent to comparing the ints themselves, so it
is embedded as integer equality. -/
def handle_application_message (env : Env) (user : TgUser)
    (application_text : String) (dbOk forwardOk alertOk : Bool) :
    ConvState × List Effect :=
  if validationRejects application_text then
    (ConvState.awaiting, [Effect.replyToApplicant tooShortMessage])
  else
    (ConvState.idle,
      save_application_to_db dbOk user.id (pyOrStr user.username "N/A")
          (pyOrStr user.first_name "N/A") (pyOrStr user.last_name "")
          application_text
        ++ [Effect.replyToApplicant ackMessage]
        ++ (if forwardOk then
              [Effect.sendMessage env.organizerChatId
                  (organizer_message user application_text),
               Effect.logInfo (forwardedLogMsg user.id env.organizerChatId)]
            else
              [Effect.sendMessage env.organizerChatId
                  (organizer_message user application_text),
               Effect.logError forwardErrorLogMsg,
               Effect.replyToApplicant forwardFailWarning]
              ++ (if user.id == env.organizerChatId then []
                  else Effect.sendMessage env.organizerChatId (alertText user) ::
                    (if alertOk then [] else [Effect.logError alertFailLogMsg]))))

/-- `start_command` (bot.py lines 95-115): welcome text plus the reply
keyboard (keyboard rendering is part of the reply effect). -/
def start_command (user : TgUser) : List Effect :=
  [Effect.replyToApplicant (welcome_message user)]

/-- `request_application_action` (bot.py lines 118-144): sends the template
and moves to `HANDLE_APPLICATION_SUBMISSION`. -/
def request_application_action : List Effect :=
  [Effect.replyToApplicant application_template_message]

/-- `cancel_conversation` (bot.py lines 218-232). -/
def cancel_conversation (user : TgUser) : List Effect :=
  [Effect.logInfo (cancelLogMsg user),
   Effect.replyToApplicant cancelMessage]

/-- `unknown_command_handler` (bot.py lines 235-240). -/
def unknown_command_handler : List Effect :=
  [Effect.replyToApplicant unknownCommandMessage]

/-- One inbound Telegram update from an applicant, as the handler filters
distinguish them: a plain text message (no bot-command entity), a command
`/name`, or a message with no text at all (photo, sticker, ...). -/
inductive InboundMessage where
  | textMsg (text : String)
  | commandMsg (name : String)
  | nonText
deriving Repr, DecidableEq

/-- Dispatch of one inbound update for one applicant, following `main`
(bot.py lines 267-310) and `python-telegram-bot` semantics.  Group-0 handlers
are tried in registration order, and the first match consumes the update:

1. `CommandHandler("start", start_command)` — registered before the
   `ConversationHandler`, so `/start` is always handled here; since this
   handler is outside the conversation, its `END` return value is ignored and
   the conversation state is left unchanged.
2. the `ConversationHandler`:
   * no active conversation (`idle`): only the entry point
     `filters.TEXT & filters.Regex("^Подать заявку$")` is tried;
   * active conversation (`awaiting`): the state handler
     `filters.TEXT & ~filters.COMMAND` is tried first (it matches every plain
     text message, including the button text), then the fallbacks
     `CommandHandler("start")` (shadowed by handler 1),
     `CommandHandler("cancel")`, and
     `MessageHandler(filters.Regex("^Подать заявку$"))` (unreachable: every
     update with text either is a command or was taken by the state handler).
3. `MessageHandler(filters.COMMAND, unknown_command_handler)`.

An update matching no handler is dropped without any effect. -/
def dispatch (env : Env) (user : TgUser) (st : ConvState)
    (msg : InboundMessage) (dbOk forwardOk alertOk : Bool) :
    ConvState × List Effect :=
  match msg with
  | InboundMessage.commandMsg name =>
    if name == "start" then
      (st, start_command user)
    else
      match st with
      | ConvState.idle =>
        (ConvState.idle, unknown_command_handler)
      | ConvState.awaiting =>
        if name == "cancel" then (ConvState.idle, cancel_conversation user)
        else (ConvState.awaiting, unknown_command_handler)
  | InboundMessage.textMsg text =>
    match st with
    | ConvState.idle =>
      if text == "Подать заявку" then
        (ConvState.awaiting, request_application_action)
      else
        (ConvState.idle, [])
    | ConvState.awaiting =>
      handle_application_message env user text dbOk forwardOk alertOk
  | InboundMessage.nonText =>
    (st, [])

/-- The records INSERTed among a list of effects. -/
def storeRecords (effects : List Effect) : List SubmissionRecord :=
  effects.filterMap fun e =>
    match e with
    | Effect.storeAppend r => some r
    | _ => none

/-- The texts replied to the applicant, in order. -/
def applicantReplies (effects : List Effect) : List String :=
  effects.filterMap fun e =>
    match e with
    | Effect.replyToApplicant t => some t
    | _ => none

/-- The `bot.send_message` attempts, in order, as (chat id, text) pairs. -/
def organizerSends (effects : List Effect) : List (Int × String) :=
  effects.filterMap fun e =>
    match e with
    | Effect.sendMessage c t => some (c, t)
    | _ => none

/-- Effects with log lines removed: what the applicant and the organizer can
observe. -/
def nonLogEffects (effects : List Effect) : List Effect :=
  effects.filter fun e =>
    match e with
    | Effect.logInfo _ => false
    | Effect.logError _ => false
    | _ => true

/-- A concrete environment for witnesses: organizer chat id 777. -/
def envW : Env := ⟨777⟩

/-- A concrete applicant for witnesses, distinct from the organizer. -/
def userW : TgUser := ⟨42, some "alice", some "Alice", none⟩

/-- Modelled from the spec: effects of the Restart Scheduler (spec §4.5).
The scheduler is code of this repository that is absent from `src/`
(`src/bot.py`'s `main` registers only the conversation handlers; the spec's
§2 counts ≈615 source lines against the 315 lines present under `src/`). -/
inductive RestartEffect where
  | armOneShot (delaySeconds : Nat)
  | notifyOrganizer (text : String)
  | logNotifyFailure
  | waitGrace (units : Nat)
  | terminate
deriving Repr, DecidableEq

/-- Modelled from the spec: the restart notice is a "best-effort notice to
the organizer"; its concrete wording is absent from `src/`. -/
def restartNoticeText : String :=
  "Бот будет перезапущен."

/-- Modelled from the spec: "one-shot deferred action, armed once at process
start with a fixed delay (one hour)" — arming is the single effect of process
start relevant to the scheduler, with the delay of 3600 seconds. -/
def restartSchedulerArm : List RestartEffect :=
  [RestartEffect.armOneShot 3600]

/-- Modelled from the spec: firing of the one-shot action — "send a
best-effort notice to the organizer via Notifier, wait a short fixed grace
period (bounded, e.g. ten time units) to allow delivery, then terminate the
process unconditionally"; "failure to notify the organizer does not prevent
termination", so a failed notify (`notifyOk = false`) only adds a log entry
and the rest of the sequence is unchanged. -/
def restartSchedulerFire (notifyOk : Bool) : List RestartEffect :=
  RestartEffect.notifyOrganizer restartNoticeText ::
    ((if notifyOk then [] else [RestartEffect.logNotifyFailure])
      ++ [RestartEffect.waitGrace 10, RestartEffect.terminate])

/-- The organizer-notification attempts in a restart-scheduler trace. -/
def restartNotifyAttempts (effects : List RestartEffect) : List RestartEffect :=
  effects.filter fun e =>
    match e with
    | RestartEffect.notifyOrganizer _ => true
    | _ => false

/-- The empty string strips to the empty string. -/
theorem pyStrip_empty_eq : pyStrip "" = "" := rfl

/-- A text whose stripped length is at least 20 passes the validation guard. -/
theorem validationRejects_eq_false (t : String) (h : 20 ≤ (pyStrip t).length) :
    validationRejects t = false := by
  unfold validationRejects
  have ht : (t == "") = false := by
    rcases ht : t == "" with _ | _
    · rfl
    · exfalso
      have he : t = "" := by simpa using ht
      subst he
      exact absurd h (by decide)
  rw [ht, Bool.false_or]
  exact decide_eq_false (Nat.not_lt.mpr h)

/-- A text whose stripped length is below 20 fails the validation guard. -/
theorem validationRejects_eq_true (t : String) (h : (pyStrip t).length < 20) :
    validationRejects t = true := by
  unfold validationRejects
  rw [decide_eq_true h, Bool.or_true]

/-- C1: in `AWAITING_SUBMISSION`, a free-text message whose trimmed length is
at least 20 leads to exactly one Submission Store append — whose record
carries that message as `application_text` — and the session transitions to
`IDLE`, for every combination of store, forward and alert outcomes. -/
theorem accepted_submission_appends_once_and_goes_idle
    (env : Env) (user : TgUser) (text : String) (dbOk forwardOk alertOk : Bool)
    (h : 20 ≤ (pyStrip text).length) :
    (dispatch env user ConvState.awaiting (InboundMessage.textMsg text)
        dbOk forwardOk alertOk).1 = ConvState.idle
    ∧ storeRecords (dispatch env user ConvState.awaiting (InboundMessage.textMsg text)
        dbOk forwardOk alertOk).2
      = [⟨user.id, pyOrStr user.username "N/A", pyOrStr user.first_name "N/A",
          pyOrStr user.last_name "", text⟩] := by
  have hv := validationRejects_eq_false text h
  cases dbOk <;> cases forwardOk <;> cases alertOk <;>
    by_cases hid : user.id == env.organizerChatId <;>
    simp [dispatch, handle_application_message, hv, storeRecords,
      save_application_to_db, hid]

/-- Witness for C1 at a 25-character text from a non-organizer applicant. -/
theorem accepted_submission_appends_once_and_goes_idle_witness :
    20 ≤ (pyStrip "AAAAAAAAAAAAAAAAAAAAAAAAA").length
    ∧ ((dispatch envW userW ConvState.awaiting
          (InboundMessage.textMsg "AAAAAAAAAAAAAAAAAAAAAAAAA") true true true).1
            = ConvState.idle
       ∧ storeRecords (dispatch envW userW ConvState.awaiting
            (InboundMessage.textMsg "AAAAAAAAAAAAAAAAAAAAAAAAA") true true true).2
          = [⟨userW.id, pyOrStr userW.username "N/A", pyOrStr userW.first_name "N/A",
              pyOrStr userW.last_name "", "AAAAAAAAAAAAAAAAAAAAAAAAA"⟩]) :=
  ⟨by decide, accepted_submission_appends_once_and_goes_idle envW userW
      "AAAAAAAAAAAAAAAAAAAAAAAAA" true true true (by decide)⟩

/-- C2: the validation guard accepts a raw text iff the text is non-empty
after trimming surrounding whitespace and its trimmed length is at least 20;
there is no other content or format condition. -/
theorem validator_accepts_iff_trimmed_nonempty_and_long (text : String) :
    validationRejects text = false
      ↔ (pyStrip text ≠ "" ∧ 20 ≤ (pyStrip text).length) := by
  unfold validationRejects
  simp only [Bool.or_eq_false_iff, beq_eq_false_iff_ne, ne_eq,
    decide_eq_false_iff_not, Nat.not_lt]
  constructor
  · rintro ⟨hne, hlen⟩
    refine ⟨?_, hlen⟩
    intro hstrip
    rw [hstrip] at hlen
    exact absurd hlen (by decide)
  · rintro ⟨hne, hlen⟩
    refine ⟨?_, hlen⟩
    intro ht
    subst ht
    exact hne rfl

/-- C3: in `AWAITING_SUBMISSION`, a free-text message whose trimmed length is
below 20 produces exactly the rejection reply — no store append, no send to
the organizer — and the session stays in `AWAITING_SUBMISSION`. -/
theorem too_short_submission_rejected_without_side_effects
    (env : Env) (user : TgUser) (text : String) (dbOk forwardOk alertOk : Bool)
    (h : (pyStrip text).length < 20) :
    dispatch env user ConvState.awaiting (InboundMessage.textMsg text)
        dbOk forwardOk alertOk
      = (ConvState.awaiting, [Effect.replyToApplicant tooShortMessage]) := by
  have hv := validationRejects_eq_true text h
  simp [dispatch, handle_application_message, hv]

/-- Witness for C3 at the 5-character text "short". -/
theorem too_short_submission_rejected_without_side_effects_witness :
    (pyStrip "short").length < 20
    ∧ dispatch envW userW ConvState.awaiting (InboundMessage.textMsg "short")
        true true true
      = (ConvState.awaiting, [Effect.replyToApplicant tooShortMessage]) :=
  ⟨by decide, too_short_submission_rejected_without_side_effects envW userW
      "short" true true true (by decide)⟩

/-- C4: on a validated submission whose forward to the organizer fails, the
applicant's replies are exactly the acknowledgment followed by the distinct
forwarding-failure warning (on forward success the acknowledgment alone); the
send attempts towards the organizer chat are the forward attempt followed by
exactly one secondary alert attempt exactly when the applicant is not the
organizer; and the failure of that secondary alert changes nothing observable
outside the log (it is logged when it occurs). -/
theorem forward_failure_warns_applicant_and_alerts_organizer
    (env : Env) (user : TgUser) (text : String) (dbOk alertOk : Bool)
    (h : 20 ≤ (pyStrip text).length) :
    applicantReplies (handle_application_message env user text dbOk false alertOk).2
        = [ackMessage, forwardFailWarning]
    ∧ ackMessage ≠ forwardFailWarning
    ∧ applicantReplies (handle_application_message env user text dbOk true alertOk).2
        = [ackMessage]
    ∧ organizerSends (handle_application_message env user text dbOk false alertOk).2
        = (env.organizerChatId, organizer_message user text) ::
            (if user.id = env.organizerChatId then []
             else [(env.organizerChatId, alertText user)])
    ∧ nonLogEffects (handle_application_message env user text dbOk false false).2
        = nonLogEffects (handle_application_message env user text dbOk false true).2
    ∧ (user.id ≠ env.organizerChatId →
        Effect.logError alertFailLogMsg
          ∈ (handle_application_message env user text dbOk false false).2) := by
  have hv := validationRejects_eq_false text h
  refine ⟨?_, by decide, ?_, ?_, ?_, ?_⟩ <;>
    cases dbOk <;> cases alertOk <;>
      by_cases hid : user.id = env.organizerChatId <;>
      simp [handle_application_message, hv, applicantReplies, organizerSends,
        nonLogEffects, save_application_to_db, hid]

/-- Witness for C4 at a 25-character text from a non-organizer applicant. -/
theorem forward_failure_warns_applicant_and_alerts_organizer_witness :
    20 ≤ (pyStrip "AAAAAAAAAAAAAAAAAAAAAAAAA").length
    ∧ (applicantReplies
          (handle_application_message envW userW "AAAAAAAAAAAAAAAAAAAAAAAAA" true false false).2
        = [ackMessage, forwardFailWarning]
    ∧ ackMessage ≠ forwardFailWarning
    ∧ applicantReplies
          (handle_application_message envW userW "AAAAAAAAAAAAAAAAAAAAAAAAA" true true false).2
        = [ackMessage]
    ∧ organizerSends
          (handle_application_message envW userW "AAAAAAAAAAAAAAAAAAAAAAAAA" true false false).2
        = (envW.organizerChatId, organizer_message userW "AAAAAAAAAAAAAAAAAAAAAAAAA") ::
            (if userW.id = envW.organizerChatId then []
             else [(envW.organizerChatId, alertText userW)])
    ∧ nonLogEffects
          (handle_application_message envW userW "AAAAAAAAAAAAAAAAAAAAAAAAA" true false false).2
        = nonLogEffects
            (handle_application_message envW userW "AAAAAAAAAAAAAAAAAAAAAAAAA" true false true).2
    ∧ (userW.id ≠ envW.organizerChatId →
        Effect.logError alertFailLogMsg
          ∈ (handle_application_message envW userW "AAAAAAAAAAAAAAAAAAAAAAAAA" true false false).2)) :=
  ⟨by decide, forward_failure_warns_applicant_and_alerts_organizer envW userW
      "AAAAAAAAAAAAAAAAAAAAAAAAA" true false (by decide)⟩

/-- C5: on a validated submission whose store append fails, the failure is
logged, and apart from log lines the behaviour is identical to the
store-success run — same acknowledgment, same forward attempt, no distinct
error reply — and the session still transitions to `IDLE`.  (The `except`
block of `save_application_to_db` swallows the error, so in the embedding the
function returns normally to `handle_application_message` by construction.) -/
theorem store_failure_logged_and_swallowed
    (env : Env) (user : TgUser) (text : String) (forwardOk alertOk : Bool)
    (h : 20 ≤ (pyStrip text).length) :
    (handle_application_message env user text false forwardOk alertOk).1 = ConvState.idle
    ∧ Effect.logError dbErrorLogMsg
        ∈ (handle_application_message env user text false forwardOk alertOk).2
    ∧ nonLogEffects (handle_application_message env user text false forwardOk alertOk).2
        = nonLogEffects (handle_application_message env user text true forwardOk alertOk).2 := by
  have hv := validationRejects_eq_false text h
  refine ⟨?_, ?_, ?_⟩ <;>
    cases forwardOk <;> cases alertOk <;>
      by_cases hid : user.id = env.organizerChatId <;>
      simp [handle_application_message, hv, nonLogEffects, save_application_to_db, hid]

/-- Witness for C5 at a 25-character text from a non-organizer applicant. -/
theorem store_failure_logged_and_swallowed_witness :
    20 ≤ (pyStrip "AAAAAAAAAAAAAAAAAAAAAAAAA").length
    ∧ ((handle_application_message envW userW "AAAAAAAAAAAAAAAAAAAAAAAAA" false true true).1
          = ConvState.idle
    ∧ Effect.logError dbErrorLogMsg
        ∈ (handle_application_message envW userW "AAAAAAAAAAAAAAAAAAAAAAAAA" false true true).2
    ∧ nonLogEffects
          (handle_application_message envW userW "AAAAAAAAAAAAAAAAAAAAAAAAA" false true true).2
        = nonLogEffects
            (handle_application_message envW userW "AAAAAAAAAAAAAAAAAAAAAAAAA" true true true).2) :=
  ⟨by decide, store_failure_logged_and_swallowed envW userW
      "AAAAAAAAAAAAAAAAAAAAAAAAA" true true (by decide)⟩

/-- C6 (amended): the `/cancel` command from either state leaves the session
in `IDLE` and never appends a record; but the cancellation acknowledgment is
emitted only from `AWAITING_SUBMISSION` — from `IDLE` the command matches no
conversation entry point (the cancel handler is only a conversation fallback)
and falls through to `unknown_command_handler`, so the applicant receives the
unknown-command reply instead. -/
theorem cancel_goes_idle_and_never_appends
    (env : Env) (user : TgUser) (st : ConvState) (dbOk forwardOk alertOk : Bool) :
    (dispatch env user st (InboundMessage.commandMsg "cancel")
        dbOk forwardOk alertOk).1 = ConvState.idle
    ∧ storeRecords (dispatch env user st (InboundMessage.commandMsg "cancel")
        dbOk forwardOk alertOk).2 = []
    ∧ (dispatch env user st (InboundMessage.commandMsg "cancel")
        dbOk forwardOk alertOk).2
      = (match st with
         | ConvState.awaiting => cancel_conversation user
         | ConvState.idle => unknown_command_handler) := by
  cases st <;>
    simp [dispatch, storeRecords, cancel_conversation, unknown_command_handler]

/-- C6 counterexample: from `IDLE`, `/cancel` yields the unknown-command
reply and no cancellation acknowledgment is emitted, refuting the claim that
the cancel trigger emits a cancellation acknowledgment from every state. -/
theorem cancel_in_idle_gets_unknown_command_reply :
    dispatch envW userW ConvState.idle (InboundMessage.commandMsg "cancel")
        true true true
      = (ConvState.idle, [Effect.replyToApplicant unknownCommandMessage])
    ∧ Effect.replyToApplicant cancelMessage ∉
        (dispatch envW userW ConvState.idle (InboundMessage.commandMsg "cancel")
          true true true).2 := by
  decide

/-- C7: evaluation at the failing input.  In `AWAITING_SUBMISSION`, the
begin-submission button text "Подать заявку" is consumed by the state's
`filters.TEXT & ~filters.COMMAND` handler before the fallbacks are tried, so
it is validated as a submission, rejected as too short (13 < 20), and the
applicant receives the rejection message — not the template the fallback
registered for this situation (bot.py line 293) would send.  The session does
remain in `AWAITING_SUBMISSION` and nothing is appended or forwarded. -/
theorem button_again_in_awaiting_rejected_as_too_short :
    dispatch envW userW ConvState.awaiting
        (InboundMessage.textMsg "Подать заявку") true true true
      = (ConvState.awaiting, [Effect.replyToApplicant tooShortMessage])
    ∧ tooShortMessage ≠ application_template_message := by
  decide

/-- C8: the restart action is armed exactly once at process start with a
fixed one-hour (3600-second) delay; on firing it makes exactly one
best-effort notification attempt towards the organizer, waits the fixed
bounded grace period, and terminates unconditionally — the trace ends in
`terminate`, exactly once, whether or not the notification succeeds. -/
theorem restart_scheduler_armed_once_and_always_terminates (notifyOk : Bool) :
    restartSchedulerArm = [RestartEffect.armOneShot 3600]
    ∧ restartNotifyAttempts (restartSchedulerFire notifyOk)
        = [RestartEffect.notifyOrganizer restartNoticeText]
    ∧ (restartSchedulerFire notifyOk).getLast? = some RestartEffect.terminate
    ∧ (restartSchedulerFire notifyOk).count RestartEffect.terminate = 1 := by
  cases notifyOk <;> exact ⟨rfl, by decide, by decide, by decide⟩

/-- C9: on an accepted submission, the record inserted into the store carries
the raw message text unchanged as `application_text`, and the first (and
only) forward to the organizer embeds exactly that raw text between the
summary header and the closing code fence — trimming is used by the length
check only, never on the stored or forwarded content. -/
theorem raw_text_stored_and_forwarded_unchanged
    (env : Env) (user : TgUser) (text : String) (dbOk forwardOk alertOk : Bool)
    (h : 20 ≤ (pyStrip text).length) :
    (storeRecords (handle_application_message env user text dbOk forwardOk alertOk).2).map
        SubmissionRecord.application_text = [text]
    ∧ (organizerSends (handle_application_message env user text dbOk forwardOk alertOk).2).head?
        = some (env.organizerChatId, organizer_message_header user ++ text ++ "\n```") := by
  have hv := validationRejects_eq_false text h
  refine ⟨?_, ?_⟩ <;>
    cases dbOk <;> cases forwardOk <;> cases alertOk <;>
      by_cases hid : user.id = env.organizerChatId <;>
      simp [handle_application_message, hv, storeRecords, organizerSends,
        save_application_to_db, organizer_message, hid]

/-- Witness for C9 at a text with surrounding whitespace, checking it is
stored and forwarded with the whitespace preserved. -/
theorem raw_text_stored_and_forwarded_unchanged_witness :
    20 ≤ (pyStrip "  AAAAAAAAAAAAAAAAAAAAAAAAA  ").length
    ∧ ((storeRecords
          (handle_application_message envW userW "  AAAAAAAAAAAAAAAAAAAAAAAAA  " true true true).2).map
        SubmissionRecord.application_text = ["  AAAAAAAAAAAAAAAAAAAAAAAAA  "]
    ∧ (organizerSends
          (handle_application_message envW userW "  AAAAAAAAAAAAAAAAAAAAAAAAA  " true true true).2).head?
        = some (envW.organizerChatId,
            organizer_message_header userW ++ "  AAAAAAAAAAAAAAAAAAAAAAAAA  " ++ "\n```")) :=
  ⟨by decide, raw_text_stored_and_forwarded_unchanged envW userW
      "  AAAAAAAAAAAAAAAAAAAAAAAAA  " true true true (by decide)⟩

/-- C10: in `AWAITING_SUBMISSION`, an inbound message with no text (photo,
sticker, ...) matches no registered handler: no reply, no append, no send,
and the session remains in `AWAITING_SUBMISSION`. -/
theorem non_text_in_awaiting_matches_no_handler
    (env : Env) (user : TgUser) (dbOk forwardOk alertOk : Bool) :
    dispatch env user ConvState.awaiting InboundMessage.nonText dbOk forwardOk alertOk
      = (ConvState.awaiting, []) := rfl
